import Mathlib

/-!
Shallow embedding of `src/import_modpack.py` (modpack importer).

The program reconciles a local `mods` directory against a JSON manifest:
it derives deterministic filenames from mod entries (`generate_mod_filename`),
validates file bytes against SHA-256 digests (`validate_file`), downloads
missing artifacts (`download_file`), prunes obsolete regular files, filters
the desired mod set by deployment role, and (for servers) runs the Forge
installer and renames its output.

Machine integers are modelled as `Nat` with explicit `% 2^32` where the
SHA-256 rounds overflow; bytes are `Nat` values below 256; Python exceptions
become `Except`; the filesystem is passed explicitly.
-/

namespace Modpack

/-- 32-bit modulus used by the SHA-256 round arithmetic. -/
def m32 : Nat := 4294967296

/-- Rotate a 32-bit word right by `n` bits. -/
def rotr (n x : Nat) : Nat := ((x >>> n) ||| (x <<< (32 - n))) % m32

/-- SHA-256 `Ch` function (choose). -/
def ch (x y z : Nat) : Nat := (x &&& y) ^^^ ((x ^^^ 4294967295) &&& z)

/-- SHA-256 `Maj` function (majority). -/
def maj (x y z : Nat) : Nat := (x &&& y) ^^^ (x &&& z) ^^^ (y &&& z)

/-- SHA-256 big sigma-0. -/
def bSig0 (x : Nat) : Nat := rotr 2 x ^^^ rotr 13 x ^^^ rotr 22 x

/-- SHA-256 big sigma-1. -/
def bSig1 (x : Nat) : Nat := rotr 6 x ^^^ rotr 11 x ^^^ rotr 25 x

/-- SHA-256 small sigma-0. -/
def sSig0 (x : Nat) : Nat := rotr 7 x ^^^ rotr 18 x ^^^ (x >>> 3)

/-- SHA-256 small sigma-1. -/
def sSig1 (x : Nat) : Nat := rotr 17 x ^^^ rotr 19 x ^^^ (x >>> 10)

/-- The 64 SHA-256 round constants, in decimal. -/
def K : List Nat :=
  [1116352408, 1899447441, 3049323471, 3921009573, 961987163, 1508970993,
   2453635748, 2870763221, 3624381080, 310598401, 607225278, 1426881987,
   1925078388, 2162078206, 2614888103, 3248222580, 3835390401, 4022224774,
   264347078, 604807628, 770255983, 1249150122, 1555081692, 1996064986,
   2554220882, 2821834349, 2952996808, 3210313671, 3336571891, 3584528711,
   113926993, 338241895, 666307205, 773529912, 1294757372, 1396182291,
   1695183700, 1986661051, 2177026350, 2456956037, 2730485921, 2820302411,
   3259730800, 3345764771, 3516065817, 3600352804, 4094571909, 275423344,
   430227734, 506948616, 659060556, 883997877, 958139571, 1322822218,
   1537002063, 1747873779, 1955562222, 2024104815, 2227730452, 2361852424,
   2428436474, 2756734187, 3204031479, 3329325298]

/-- The eight working registers of the SHA-256 compression function. -/
structure Sha256State where
  a : Nat
  b : Nat
  c : Nat
  d : Nat
  e : Nat
  f : Nat
  g : Nat
  h : Nat
deriving DecidableEq

/-- Initial SHA-256 hash state, in decimal. -/
def sha256Init : Sha256State :=
  ⟨1779033703, 3144134277, 1013904242, 2773480762, 1359893119, 2600822924, 528734635, 1541459225⟩

/-- Pad a byte message per SHA-256: append 0x80, zeros, and the 64-bit
big-endian bit length, to a multiple of 64 bytes. -/
def padMessage (msg : List Nat) : List Nat :=
  let len := msg.length
  let bitLen := 8 * len
  let zeros := (119 - len % 64) % 64
  msg ++ [0x80] ++ List.replicate zeros 0 ++
    [bitLen >>> 56 &&& 255, bitLen >>> 48 &&& 255, bitLen >>> 40 &&& 255, bitLen >>> 32 &&& 255,
     bitLen >>> 24 &&& 255, bitLen >>> 16 &&& 255, bitLen >>> 8 &&& 255, bitLen &&& 255]

/-- Split a padded message into 64-byte blocks. -/
def toBlocks (l : List Nat) : List (List Nat) :=
  (List.range (l.length / 64)).map (fun i => (l.drop (64 * i)).take 64)

/-- Read the `i`-th big-endian 32-bit word of a 64-byte block. -/
def wordAt (block : List Nat) (i : Nat) : Nat :=
  block.getD (4 * i) 0 * 16777216 + block.getD (4 * i + 1) 0 * 65536 +
    block.getD (4 * i + 2) 0 * 256 + block.getD (4 * i + 3) 0

/-- Expand a block's 16 words into the 64-word message schedule. -/
def msgSchedule (block : List Nat) : List Nat :=
  let w0 := (List.range 16).map (wordAt block)
  (List.range 48).foldl
    (fun w t =>
      w ++ [(w.getD t 0 + sSig0 (w.getD (t + 1) 0) + w.getD (t + 9) 0 + sSig1 (w.getD (t + 14) 0)) % m32])
    w0

/-- One SHA-256 compression round. -/
def sha256Round (w k : Nat) (s : Sha256State) : Sha256State :=
  let t1 := (s.h + bSig1 s.e + ch s.e s.f s.g + k + w) % m32
  let t2 := (bSig0 s.a + maj s.a s.b s.c) % m32
  ⟨(t1 + t2) % m32, s.a, s.b, s.c, (s.d + t1) % m32, s.e, s.f, s.g⟩

/-- Compress one 64-byte block into the hash state. -/
def compressBlock (s : Sha256State) (block : List Nat) : Sha256State :=
  let w := msgSchedule block
  let r := (List.range 64).foldl (fun st t => sha256Round (w.getD t 0) (K.getD t 0) st) s
  ⟨(s.a + r.a) % m32, (s.b + r.b) % m32, (s.c + r.c) % m32, (s.d + r.d) % m32,
   (s.e + r.e) % m32, (s.f + r.f) % m32, (s.g + r.g) % m32, (s.h + r.h) % m32⟩

/-- SHA-256 of a byte message, as the final eight-word state. -/
def sha256Words (msg : List Nat) : Sha256State :=
  (toBlocks (padMessage msg)).foldl compressBlock sha256Init

/-- Big-endian bytes of a 32-bit word. -/
def word4 (w : Nat) : List Nat := [w >>> 24 &&& 255, w >>> 16 &&& 255, w >>> 8 &&& 255, w &&& 255]

/-- SHA-256 digest of a byte message, as 32 bytes. -/
def sha256Bytes (msg : List Nat) : List Nat :=
  word4 (sha256Words msg).a ++ word4 (sha256Words msg).b ++ word4 (sha256Words msg).c ++
    word4 (sha256Words msg).d ++ word4 (sha256Words msg).e ++ word4 (sha256Words msg).f ++
    word4 (sha256Words msg).g ++ word4 (sha256Words msg).h

/-- Lowercase hex digit for a value below 16. -/
def hexDigitChar (n : Nat) : Char := if n < 10 then Char.ofNat (48 + n) else Char.ofNat (87 + n)

/-- Two lowercase hex characters of a byte. -/
def byteHexChars (b : Nat) : List Char := [hexDigitChar (b / 16 % 16), hexDigitChar (b % 16)]

/-- Lowercase hex encoding of the SHA-256 digest of a byte message; the model
of Python's `hashlib.sha256(data).hexdigest()`. -/
def sha256Hex (msg : List Nat) : String := String.mk ((sha256Bytes msg).map byteHexChars).flatten

/-- UTF-8 encoding of one character, as bytes. -/
def utf8EncodeCharBytes (c : Char) : List Nat :=
  let n := c.toNat
  if n < 128 then [n]
  else if n < 2048 then [192 + n / 64, 128 + n % 64]
  else if n < 65536 then [224 + n / 4096, 128 + n / 64 % 64, 128 + n % 64]
  else [240 + n / 262144, 128 + n / 4096 % 64, 128 + n / 64 % 64, 128 + n % 64]

/-- UTF-8 encoding of a string, as bytes; the model of Python's
`str.encode('utf-8')`. -/
def utf8Bytes (s : String) : List Nat := (s.toList.map utf8EncodeCharBytes).flatten

/-!
## Data model and operations of the importer

`ModSpec` models one JSON mod entry as the program reads it with `dict.get`:
optional string fields are `Option String` (a key bound to `""` is present
but falsy in Python, hence the explicit `truthy` test below), and the flags
`disabled`, `client`, `server` are the truthiness of those keys.
-/

/-- One mod entry of the manifest (and also the `forge` entry, which uses the
same `source`/`digest` fields). -/
structure ModSpec where
  source : Option String := none
  name : Option String := none
  version : Option String := none
  digest : Option String := none
  disabled : Bool := false
  client : Bool := false
  server : Bool := false
deriving DecidableEq

/-- Python truthiness of an optional string (`if s:`): false for a missing
key and for the empty string. -/
def truthy : Option String → Bool
  | none => false
  | some s => !(s == "")

/-- Status-line markers and advisory prints emitted by the program. -/
inductive LogLine where
  /-- Marker line with a dash: placeholder entry skipped. -/
  | skip (destination : String)
  /-- Marker line with an o: file already present. -/
  | existing (destination : String)
  /-- Marker line with a down arrow: fetching from the source URL. -/
  | fetching (destination : String)
  /-- Marker line with an x: fetch reported as failed. -/
  | failed (destination : String)
  /-- Indented digest line: computed digest printed when no expected digest given. -/
  | digestAdvisory (value : String)
deriving DecidableEq

/-- Python exceptions the modelled code can raise. -/
inductive PyError where
  /-- Mismatch error raised by `validate_file`, carrying the computed and
  expected digests. -/
  | valueError (computed expected : String)
  /-- An exception raised by `requests.get`; `true` marks `requests.HTTPError`
  (caught and re-raised by `download_file`), `false` any other request
  exception (propagates uncaught). -/
  | requestsExn (isHTTPError : Bool)
  /-- Index error from indexing the first element of an empty glob result. -/
  | indexError
deriving DecidableEq

/-- Model of `validate_file(file, digest=None)`: computes the SHA-256 hex
digest of the bytes; when a truthy digest is given, raises `ValueError` on
mismatch; otherwise prints the computed digest. Returns the outcome and the
printed lines. -/
def validate_file (file : List Nat) (digest : Option String) : Except PyError Unit × List LogLine :=
  let file_digest := sha256Hex file
  if truthy digest then
    if file_digest ≠ digest.getD "" then
      (Except.error (PyError.valueError file_digest (digest.getD "")), [])
    else
      (Except.ok (), [])
  else
    (Except.ok (), [LogLine.digestAdvisory file_digest])

/-- Model of `generate_mod_filename(spec)`: a tag from the hashed source URL
(first 6 hex characters, or the placeholder `<stub>` when the source is
missing or empty), optionally prefixed by name and version, with a `.jar` or
`.jar.disabled` extension. Python's `name is not tag` object-identity test is
true exactly when the `name` key was supplied (a JSON-parsed string is never
the same object as the freshly computed tag), i.e. when `spec.name` is
`some`. -/
def generate_mod_filename (spec : ModSpec) : String :=
  let tag := if truthy spec.source then (sha256Hex (utf8Bytes (spec.source.getD ""))).take 6
             else "<stub>"
  let name := spec.name.getD tag
  let name := if spec.name.isSome then
                name ++ (if truthy spec.version then "-" ++ spec.version.getD "" ++ "-" else "-") ++ tag
              else name
  name ++ (if !spec.disabled then ".jar" else ".jar.disabled")

/-- Outcome of the call `requests.get(source)`: either a completed HTTP
exchange carrying a status code and body (`requests.get` returns a response
object for every completed exchange, including non-success statuses), or a
raised exception. -/
inductive FetchOutcome where
  /-- The call returned a response; the program never reads `status`. -/
  | response (status : Nat) (content : List Nat)
  /-- The call raised; `true` for `requests.HTTPError`, `false` for any
  other request exception (connection error, timeout, ...). -/
  | exn (isHTTPError : Bool)

/-- Result of one `download_file` call: the outcome (ok, or the propagated
exception), the files written, and the lines printed. -/
structure DlResult where
  res : Except PyError Unit
  writes : List (String × List Nat)
  log : List LogLine

/-- Model of `download_file(source, destination, digest=None)` against an
explicit filesystem `fs` (path to file bytes) and the outcome `fetch` of the
`requests.get` call it would make. Mirrors the source: skip falsy sources;
validate in place when the destination exists; otherwise fetch, validate,
then write; `requests.HTTPError` is printed as failed and re-raised, other
request exceptions propagate. -/
def download_file (source : Option String) (destination : String) (digest : Option String)
    (fetch : FetchOutcome) (fs : String → Option (List Nat)) : DlResult :=
  if truthy source = false then
    { res := Except.ok (), writes := [], log := [LogLine.skip destination] }
  else
    match fs destination with
    | some contents =>
      match validate_file contents digest with
      | (r, out) => { res := r, writes := [], log := LogLine.existing destination :: out }
    | none =>
      match fetch with
      | FetchOutcome.response _status content =>
        match validate_file content digest with
        | (Except.ok _, out) =>
          { res := Except.ok (), writes := [(destination, content)],
            log := LogLine.fetching destination :: out }
        | (Except.error e, out) =>
          { res := Except.error e, writes := [], log := LogLine.fetching destination :: out }
      | FetchOutcome.exn isHTTPError =>
        if isHTTPError then
          { res := Except.error (PyError.requestsExn true), writes := [],
            log := [LogLine.fetching destination, LogLine.failed destination] }
        else
          { res := Except.error (PyError.requestsExn false), writes := [],
            log := [LogLine.fetching destination] }

/-- Deployment role selected by the mutually exclusive `-s` / `-c` flags. -/
inductive Role where
  | server
  | client
  | unspecified
deriving DecidableEq

/-- Model of the role filter: `if arguments.server:` keeps mods whose
`client` key is falsy, `else` (client role or no role) keeps mods whose
`server` key is falsy. -/
def filter_mods (role : Role) (mods : List ModSpec) : List ModSpec :=
  match role with
  | Role.server => mods.filter (fun m => !m.client)
  | _ => mods.filter (fun m => !m.server)

/-- One entry observed by `os.listdir('mods')`, with its `os.path.isdir`
status. -/
structure DirEntry where
  name : String
  isDir : Bool
deriving DecidableEq

/-- Model of the prune loop: unless `--preserve` was given, every listed
entry whose name is not among the desired filenames and which is not a
directory is removed. Returns the removed entries. -/
def prune_removed (preserve : Bool) (mods : List ModSpec) (observed : List DirEntry) : List DirEntry :=
  if preserve then []
  else observed.filter (fun e => !((mods.map generate_mod_filename).contains e.name) && !e.isDir)

/-- Whether a filename matches the glob pattern `forge-*-universal.jar`:
the literal head `forge-`, the literal tail `-universal.jar`, and enough
length that the two do not overlap. -/
def forgeUniversalMatch (s : String) : Bool :=
  List.isPrefixOf "forge-".toList s.toList &&
    List.isSuffixOf "-universal.jar".toList s.toList && decide (20 ≤ s.toList.length)

/-- Model of `glob.glob('forge-*-universal.jar')` over a directory listing. -/
def glob_forge_universal (listing : List String) : List String :=
  listing.filter forgeUniversalMatch

/-- Model of `os.rename(glob.glob('forge-*-universal.jar')[0], 'forge-server.jar')`:
indexing `[0]` into an empty match list raises `IndexError`; otherwise the
first match (in listing order) is renamed to the fixed final name. -/
def forge_rename_step (listing : List String) : Except PyError (String × String) :=
  match glob_forge_universal listing with
  | [] => Except.error PyError.indexError
  | c :: _ => Except.ok (c, "forge-server.jar")

/-- The claim's reading of the filename derivation, with field presence
taken as the `Option` being `some` (so an empty-string version or source
still counts as present): with name and version, `name-version-fingerprint`;
with name only, `name-fingerprint`; with no name, just the fingerprint;
fingerprint from the hashed source or the placeholder; extension `.jar`,
then `.disabled` when disabled. -/
def claimC6_filename (spec : ModSpec) : String :=
  let fingerprint := match spec.source with
    | some s => (sha256Hex (utf8Bytes s)).take 6
    | none => "<stub>"
  let base := match spec.name, spec.version with
    | some n, some v => n ++ "-" ++ v ++ "-" ++ fingerprint
    | some n, none => n ++ "-" ++ fingerprint
    | none, _ => fingerprint
  (base ++ ".jar") ++ (if spec.disabled then ".disabled" else "")

/-- The amended reading of the filename derivation, following the code's
truthiness tests: the version contributes only when non-empty, and the
fingerprint falls back to the placeholder when the source is missing or
empty. -/
def amendedC6_filename (spec : ModSpec) : String :=
  let fingerprint := if truthy spec.source then (sha256Hex (utf8Bytes (spec.source.getD ""))).take 6
                     else "<stub>"
  let base := match spec.name with
    | some n =>
      if truthy spec.version then n ++ "-" ++ spec.version.getD "" ++ "-" ++ fingerprint
      else n ++ "-" ++ fingerprint
    | none => fingerprint
  (base ++ ".jar") ++ (if spec.disabled then ".disabled" else "")

/-!
## Helper lemmas
-/

theorem str_append_assoc (a b c : String) : a ++ b ++ c = a ++ (b ++ c) := by
  rcases a with ⟨la⟩
  rcases b with ⟨lb⟩
  rcases c with ⟨lc⟩
  show String.mk (la ++ lb ++ lc) = String.mk (la ++ (lb ++ lc))
  rw [List.append_assoc]

theorem str_append_empty (s : String) : s ++ "" = s := by
  rcases s with ⟨l⟩
  show String.mk (l ++ []) = String.mk l
  rw [List.append_nil]

theorem byteHexChars_flatten_length (l : List Nat) :
    ((l.map byteHexChars).flatten).length = 2 * l.length := by
  induction l with
  | nil => rfl
  | cons a t ih => simp [byteHexChars, ih]; omega

theorem sha256Bytes_length (msg : List Nat) : (sha256Bytes msg).length = 32 := by
  simp [sha256Bytes, word4]

theorem sha256Hex_length (msg : List Nat) : (sha256Hex msg).length = 64 := by
  show (((sha256Bytes msg).map byteHexChars).flatten).length = 64
  rw [byteHexChars_flatten_length, sha256Bytes_length]

theorem sha256Hex_ne_of_length (msg : List Nat) (s : String) (h : s.length ≠ 64) :
    sha256Hex msg ≠ s :=
  fun e => h (e ▸ sha256Hex_length msg)

/-!
## Claim theorems
-/

/-- Claim C1: for every spec with a source and a destination that does not
yet exist, whenever the fetch-then-store path of `download_file` fails (for
any reason: a raised transport exception or a digest mismatch of the fetched
bytes) no file is created at the destination, and any write that does occur
is of bytes that passed validation against the spec's expected digest, at
the destination path. -/
theorem C1_fetch_failure_no_write (source : Option String) (destination : String)
    (digest : Option String) (fetch : FetchOutcome) (fs : String → Option (List Nat))
    (hs : truthy source = true) (hnew : fs destination = none) :
    (∀ e, (download_file source destination digest fetch fs).res = Except.error e →
        (download_file source destination digest fetch fs).writes = [])
  ∧ (∀ p ∈ (download_file source destination digest fetch fs).writes,
        p.1 = destination ∧ (validate_file p.2 digest).1 = Except.ok ()) := by
  cases fetch with
  | response status content =>
    rcases hv : validate_file content digest with ⟨r, out⟩
    cases r with
    | ok u =>
      cases u
      have hdl : download_file source destination digest (FetchOutcome.response status content) fs =
          { res := Except.ok (), writes := [(destination, content)],
            log := LogLine.fetching destination :: out } := by
        simp [download_file, hs, hnew, hv]
      rw [hdl]
      constructor
      · intro e he
        exact absurd he (by simp)
      · intro p hp
        rw [List.mem_singleton] at hp
        subst hp
        exact ⟨rfl, by simp [hv]⟩
    | error e' =>
      have hdl : download_file source destination digest (FetchOutcome.response status content) fs =
          { res := Except.error e', writes := [],
            log := LogLine.fetching destination :: out } := by
        simp [download_file, hs, hnew, hv]
      rw [hdl]
      exact ⟨fun e _ => rfl, fun p hp => absurd hp (by simp)⟩
  | exn isH =>
    cases isH with
    | false =>
      have hdl : download_file source destination digest (FetchOutcome.exn false) fs =
          { res := Except.error (PyError.requestsExn false), writes := [],
            log := [LogLine.fetching destination] } := by
        simp [download_file, hs, hnew]
      rw [hdl]
      exact ⟨fun e _ => rfl, fun p hp => absurd hp (by simp)⟩
    | true =>
      have hdl : download_file source destination digest (FetchOutcome.exn true) fs =
          { res := Except.error (PyError.requestsExn true), writes := [],
            log := [LogLine.fetching destination, LogLine.failed destination] } := by
        simp [download_file, hs, hnew]
      rw [hdl]
      exact ⟨fun e _ => rfl, fun p hp => absurd hp (by simp)⟩

/-- Claim C1 witness: a concrete failing fetch (connection error) with a
fresh destination writes nothing. -/
theorem C1_witness :
    truthy (some "http://x/a.jar") = true
  ∧ (download_file (some "http://x/a.jar") "mods/new.jar" none (FetchOutcome.exn false)
        (fun _ => none)).writes = [] :=
  ⟨rfl, (C1_fetch_failure_no_write (some "http://x/a.jar") "mods/new.jar" none (FetchOutcome.exn false)
      (fun _ => none) rfl rfl).1 (PyError.requestsExn false) rfl⟩

/-- Claim C2 counterexample: a destination file whose bytes are `[0]`,
synchronized against a supplied expected digest `""` that certainly differs
from the computed digest, succeeds instead of failing with the mismatch
error — the code's truthiness test treats the empty digest as absent. -/
theorem C2_counterexample :
    (download_file (some "u") "mods/a.jar" (some "") (FetchOutcome.exn false)
        (fun p => if p = "mods/a.jar" then some [0] else none)).res = Except.ok ()
  ∧ (download_file (some "u") "mods/a.jar" (some "") (FetchOutcome.exn false)
        (fun p => if p = "mods/a.jar" then some [0] else none)).writes = []
  ∧ sha256Hex [0] ≠ "" :=
  ⟨rfl, rfl, sha256Hex_ne_of_length [0] "" (by decide)⟩

/-- Claim C2 (amended): with a source and an existing destination file the
synchronizer never writes — it only reads and validates — and when a
supplied expected digest is non-empty and differs from the computed digest
of the existing bytes, it fails with the digest-mismatch error. -/
theorem C2_existing_readonly (source : Option String) (destination : String)
    (digest : Option String) (fetch : FetchOutcome) (fs : String → Option (List Nat))
    (contents : List Nat) (hs : truthy source = true) (hex : fs destination = some contents) :
    (download_file source destination digest fetch fs).writes = []
  ∧ (∀ d, digest = some d → d ≠ "" → sha256Hex contents ≠ d →
      (download_file source destination digest fetch fs).res
        = Except.error (PyError.valueError (sha256Hex contents) d)) := by
  constructor
  · rcases hv : validate_file contents digest with ⟨r, out⟩
    simp [download_file, hs, hex, hv]
  · intro d hd hne hmm
    subst hd
    have hv : validate_file contents (some d) =
        (Except.error (PyError.valueError (sha256Hex contents) d), []) := by
      simp [validate_file, truthy, hne, hmm]
    simp [download_file, hs, hex, hv]

/-- Claim C2 witness: a concrete existing file with bytes `[0]` and the
mismatching non-empty expected digest `"x"` fails with the mismatch error. -/
theorem C2_witness :
    (download_file (some "u") "mods/a.jar" (some "x") (FetchOutcome.exn false)
        (fun p => if p = "mods/a.jar" then some [0] else none)).res
      = Except.error (PyError.valueError (sha256Hex [0]) "x") :=
  (C2_existing_readonly (some "u") "mods/a.jar" (some "x") (FetchOutcome.exn false)
      (fun p => if p = "mods/a.jar" then some [0] else none) [0] rfl (by simp)).2
    "x" rfl (by decide) (sha256Hex_ne_of_length [0] "x" (by decide))

/-- Claim C3: evaluating `download_file` at a completed HTTP exchange with a
non-success status (404) and no expected digest, for a fresh destination:
the code never consults the status, treats the error body as the artifact's
content, validates it (printing its digest as advisory output), writes it to
the destination, and reports success — instead of failing with a fetch
error as the claim states. -/
theorem C3_nonsuccess_body_written :
    download_file (some "http://host/missing.jar") "mods/a.jar" none
        (FetchOutcome.response 404 (utf8Bytes "404 Not Found")) (fun _ => none) =
      { res := Except.ok (),
        writes := [("mods/a.jar", utf8Bytes "404 Not Found")],
        log := [LogLine.fetching "mods/a.jar",
                LogLine.digestAdvisory (sha256Hex (utf8Bytes "404 Not Found"))] } := rfl

/-- Claim C4: with pruning enabled, the removed entries are exactly the
observed entries that are not directories and whose names are not among the
filenames derived from the role-filtered desired mod set. -/
theorem C4_prune_exact (role : Role) (allMods : List ModSpec) (observed : List DirEntry)
    (e : DirEntry) :
    e ∈ prune_removed false (filter_mods role allMods) observed
  ↔ e ∈ observed ∧ e.isDir = false
      ∧ e.name ∉ (filter_mods role allMods).map generate_mod_filename := by
  simp [prune_removed, List.mem_filter, and_assoc]
  tauto

/-- Claim C5: a mod is in the role-filtered desired set iff it is in the
manifest and not flagged excluded for the active role: the server role drops
mods with the client flag, the client role and the role-less default drop
mods with the server flag, and a mod with neither flag is desired under
every role. -/
theorem C5_role_filter (mods : List ModSpec) (m : ModSpec) :
    (m ∈ filter_mods Role.server mods ↔ m ∈ mods ∧ m.client = false)
  ∧ (m ∈ filter_mods Role.client mods ↔ m ∈ mods ∧ m.server = false)
  ∧ (m ∈ filter_mods Role.unspecified mods ↔ m ∈ mods ∧ m.server = false)
  ∧ (∀ role, m ∈ mods → m.client = false → m.server = false → m ∈ filter_mods role mods) := by
  refine ⟨by simp [filter_mods, List.mem_filter], by simp [filter_mods, List.mem_filter],
    by simp [filter_mods, List.mem_filter], ?_⟩
  intro role hm hc hs
  cases role <;> simp [filter_mods, List.mem_filter, hm, hc, hs]

/-- Claim C5 witness: a mod with neither exclusion flag is desired under
both the server and the client role. -/
theorem C5_witness :
    ({} : ModSpec) ∈ filter_mods Role.server [{}]
  ∧ ({} : ModSpec) ∈ filter_mods Role.client [{}] :=
  ⟨(C5_role_filter [{}] {}).2.2.2 Role.server (by simp) rfl rfl,
   (C5_role_filter [{}] {}).2.2.2 Role.client (by simp) rfl rfl⟩

/-- Claim C6 counterexample: a spec with a name and a present-but-empty
version. The claim's derivation (version present, so insert it between two
dashes) yields a double dash, while the code's truthiness test drops the
empty version, yielding a single dash. -/
theorem C6_counterexample :
    generate_mod_filename { name := some "Foo", version := some "" } = "Foo-<stub>.jar"
  ∧ claimC6_filename { name := some "Foo", version := some "" } = "Foo--<stub>.jar"
  ∧ ("Foo-<stub>.jar" : String) ≠ "Foo--<stub>.jar" :=
  ⟨rfl, rfl, by decide⟩

/-- Claim C6 (amended): the derived filename equals the amended derivation,
in which the version contributes a `-version-` infix only when present and
non-empty, the fingerprint is the first 6 hex characters of the SHA-256
digest of the UTF-8 encoded source when the source is present and non-empty
(else the placeholder token), and `.disabled` is appended after `.jar`
exactly when the spec is disabled. -/
theorem C6_filename_amended (spec : ModSpec) :
    generate_mod_filename spec = amendedC6_filename spec := by
  rcases spec with ⟨src, name, ver, dig, dis, cl, sv⟩
  rcases name with _ | n <;> cases dis <;> cases htv : truthy ver <;>
    simp [generate_mod_filename, amendedC6_filename, htv, str_append_assoc, str_append_empty,
      show (".jar" ++ ".disabled" : String) = ".jar.disabled" from rfl]

/-- Claim C7: a spec whose source is absent (or empty) is recorded as
intentionally skipped and nothing else happens: no fetch outcome is
consulted, nothing is written, and no validation failure can occur — even
when a file already exists at the destination path. -/
theorem C7_placeholder_skip (source : Option String) (destination : String)
    (digest : Option String) (fetch : FetchOutcome) (fs : String → Option (List Nat))
    (h : truthy source = false) :
    download_file source destination digest fetch fs =
      { res := Except.ok (), writes := [], log := [LogLine.skip destination] } := by
  simp [download_file, h]

/-- Claim C7 witness: a sourceless spec with a mismatching digest and an
existing destination file still skips cleanly. -/
theorem C7_witness :
    truthy none = false
  ∧ download_file none "mods/a.jar" (some "deadbeef") (FetchOutcome.exn false)
      (fun _ => some [1, 2]) =
      { res := Except.ok (), writes := [], log := [LogLine.skip "mods/a.jar"] } :=
  ⟨rfl, C7_placeholder_skip none "mods/a.jar" (some "deadbeef") (FetchOutcome.exn false)
    (fun _ => some [1, 2]) rfl⟩

/-- Claim C8 counterexample: with the supplied expected digest `""`, the
computed digest (64 hex characters) certainly differs, yet the validator
succeeds and prints the advisory digest — the truthiness test treats the
empty expected digest as absent. -/
theorem C8_counterexample :
    (validate_file [] (some "")).1 = Except.ok ()
  ∧ (validate_file [] (some "")).2 = [LogLine.digestAdvisory (sha256Hex [])]
  ∧ sha256Hex [] ≠ "" :=
  ⟨rfl, rfl, sha256Hex_ne_of_length [] "" (by decide)⟩

/-- Claim C8 (amended): the validator fails iff a non-empty expected digest
is supplied and the computed hex digest is not exactly equal to it (in which
case the error carries the computed and expected digests); when the expected
digest is absent or empty it always succeeds and emits the computed digest
as advisory output. -/
theorem C8_validate_iff (file : List Nat) (digest : Option String) :
    ((∃ e, (validate_file file digest).1 = Except.error e)
        ↔ ∃ d, digest = some d ∧ d ≠ "" ∧ sha256Hex file ≠ d)
  ∧ ((digest = none ∨ digest = some "") →
        (validate_file file digest).1 = Except.ok ()
      ∧ (validate_file file digest).2 = [LogLine.digestAdvisory (sha256Hex file)])
  ∧ (∀ d, digest = some d → d ≠ "" → sha256Hex file ≠ d →
        (validate_file file digest).1 = Except.error (PyError.valueError (sha256Hex file) d)) := by
  rcases digest with _ | d
  · simp [validate_file, truthy]
  · by_cases hd : d = ""
    · subst hd
      simp [validate_file, truthy]
    · by_cases hm : sha256Hex file = d
      · simp [validate_file, truthy, hd, hm]
      · simp [validate_file, truthy, hd, hm]

/-- Claim C8 witness: with no expected digest the validator succeeds and
prints the computed digest. -/
theorem C8_witness :
    (validate_file [7] none).1 = Except.ok ()
  ∧ (validate_file [7] none).2 = [LogLine.digestAdvisory (sha256Hex [7])] :=
  (C8_validate_iff [7] none).2.1 (Or.inl rfl)

/-- Claim C9 counterexample: with two candidate files matching the
installer-output pattern, the install step does not fail — it silently
renames the first candidate in listing order. -/
theorem C9_counterexample :
    (glob_forge_universal ["forge-14.23.4.7-universal.jar", "forge-15.1.22-universal.jar"]).length = 2
  ∧ forge_rename_step ["forge-14.23.4.7-universal.jar", "forge-15.1.22-universal.jar"]
      = Except.ok ("forge-14.23.4.7-universal.jar", "forge-server.jar") :=
  ⟨rfl, rfl⟩

/-- Claim C9 (amended): the install step fails (with the index error from
taking the first glob match) exactly when zero candidate files match the
installer-output pattern; when one or more candidates match it renames the
first candidate in listing order to the fixed final name. -/
theorem C9_rename_first_match (listing : List String) :
    (forge_rename_step listing = Except.error PyError.indexError
        ↔ glob_forge_universal listing = [])
  ∧ (∀ c rest, glob_forge_universal listing = c :: rest →
      forge_rename_step listing = Except.ok (c, "forge-server.jar")) := by
  unfold forge_rename_step
  rcases hg : glob_forge_universal listing with _ | ⟨c, rest⟩
  · refine ⟨by simp, ?_⟩
    intro c rest hcr
    simp at hcr
  · refine ⟨by simp, ?_⟩
    intro c' rest' hcr
    injection hcr with h1 h2
    subst h1
    rfl

/-- Claim C9 witness: with exactly one matching candidate the install step
renames it to the fixed final name. -/
theorem C9_witness :
    forge_rename_step ["forge-1.2-universal.jar", "readme.txt"]
      = Except.ok ("forge-1.2-universal.jar", "forge-server.jar") :=
  (C9_rename_first_match ["forge-1.2-universal.jar", "readme.txt"]).2
    "forge-1.2-universal.jar" [] (by decide)

/-- Claim C10: when the role-filtered desired mod set is empty, the prune
step removes every observed entry that is not a directory, i.e. the removed
set is exactly the non-directory part of the listing. -/
theorem C10_prune_all_files (role : Role) (allMods : List ModSpec) (observed : List DirEntry)
    (h : filter_mods role allMods = []) :
    prune_removed false (filter_mods role allMods) observed =
      observed.filter (fun e => !e.isDir) := by
  rw [h]
  simp [prune_removed]

/-- Claim C10 witness: a manifest whose only mod is excluded for the server
role leaves an empty desired set, and pruning then removes the lone regular
file while keeping the subdirectory. -/
theorem C10_witness :
    filter_mods Role.server [{ client := true }] = []
  ∧ prune_removed false (filter_mods Role.server [{ client := true }])
      [⟨"Old-abc123.jar", false⟩, ⟨"config", true⟩] =
      [⟨"Old-abc123.jar", false⟩, ⟨"config", true⟩].filter (fun e => !e.isDir) :=
  ⟨rfl, C10_prune_all_files Role.server [{ client := true }]
    [⟨"Old-abc123.jar", false⟩, ⟨"config", true⟩] rfl⟩

end Modpack
